import Mathlib

/-!
Verification of the resilient LLM-invocation layer of the cold-email
generator: the response parser (email_utils.parse_subject_and_body), the
prompt sanitization helpers, and the retry / circuit-breaker / fallback
machinery of generate_email.py, shallowly embedded in Lean.

Python strings are modelled as lists of characters (PyStr).  Python float
timestamps are modelled as integers, since every property at stake depends
only on ordered additive arithmetic of times.  The network and the clock are
modelled as oracles (functions from a call index to a response, resp. a
time), so that one logical call of _invoke_with_fallback becomes a pure
function of the oracles and the breaker state.
-/

namespace ColdEmail

/-- Python strings, modelled as lists of characters. -/
abbrev PyStr := List Char

/-- The characters treated as whitespace by Python str.strip and
str.isspace (the Unicode whitespace set). -/
def pySpaceChars : List Char :=
  [' ', '\t', '\n', '\r', '\x0b', '\x0c',
   '\x1c', '\x1d', '\x1e', '\x1f', '\x85', '\xa0',
   '\u1680', '\u2000', '\u2001', '\u2002', '\u2003', '\u2004', '\u2005',
   '\u2006', '\u2007', '\u2008', '\u2009', '\u200a',
   '\u2028', '\u2029', '\u202f', '\u205f', '\u3000']

/-- Whether a character is Python whitespace. -/
def isPySpace (c : Char) : Bool := pySpaceChars.contains c

/-- The characters treated as line boundaries by Python str.splitlines. -/
def lineBreakChars : List Char :=
  ['\n', '\r', '\x0b', '\x0c', '\x1c', '\x1d', '\x1e', '\x85',
   '\u2028', '\u2029']

/-- Whether a character is a Python line boundary. -/
def isLineBreak (c : Char) : Bool := lineBreakChars.contains c

/-- Python str.lstrip with no argument: drop leading whitespace. -/
def pyLstrip (s : PyStr) : PyStr := s.dropWhile isPySpace

/-- Python str.rstrip with no argument: drop trailing whitespace. -/
def pyRstrip (s : PyStr) : PyStr := (s.reverse.dropWhile isPySpace).reverse

/-- Python str.strip with no argument: drop whitespace at both ends. -/
def pyStrip (s : PyStr) : PyStr := pyLstrip (pyRstrip s)

/-- Worker for splitlines: the accumulator holds the current line,
reversed.  Mirrors Python str.splitlines, including the treatment of a
carriage-return + line-feed pair as a single boundary and the absence of
a final empty line after a trailing terminator. -/
def splitlinesAux : PyStr → PyStr → List PyStr
  | [], acc => [acc.reverse]
  | '\r' :: '\n' :: rest, acc =>
      acc.reverse :: (if rest = [] then [] else splitlinesAux rest [])
  | c :: rest, acc =>
      if c = '\r' then
        acc.reverse :: (if rest = [] then [] else splitlinesAux rest [])
      else if isLineBreak c then
        acc.reverse :: (if rest = [] then [] else splitlinesAux rest [])
      else splitlinesAux rest (c :: acc)

/-- Python str.splitlines. -/
def splitlines (s : PyStr) : List PyStr :=
  if s = [] then [] else splitlinesAux s []

/-- Python "\n".join on a list of lines. -/
def joinNL : List PyStr → PyStr
  | [] => []
  | [l] => l
  | l :: ls => l ++ '\n' :: joinNL ls

/-- Python str.lstrip("\n"): drop leading newline characters only. -/
def lstripNL (s : PyStr) : PyStr := s.dropWhile (fun c => c = '\n')

/-- Everything after the first colon of a line; models
line.split(":", 1)[1] on a line that contains a colon. -/
def dropThroughColon : PyStr → PyStr
  | [] => []
  | c :: rest => if c = ':' then rest else dropThroughColon rest

/-- The fallback scan of parse_subject_and_body: the first line with
non-whitespace content becomes the subject (stripped) and the lines after
it become the body; if no such line exists the subject is empty and the
body line list is empty. -/
def firstNonBlank : List PyStr → PyStr × List PyStr
  | [] => ([], [])
  | ln :: rest => if pyStrip ln ≠ [] then (pyStrip ln, rest) else firstNonBlank rest

/-- The line dispatch of parse_subject_and_body: when the first line
starts (case-insensitively) with the subject marker, the remainder of
that line after the first colon, stripped, is the subject and the other
lines are the body lines; otherwise fall back to the first non-blank
line. -/
def parseLines : List PyStr → PyStr × List PyStr
  | [] => firstNonBlank []
  | l0 :: rest =>
      if List.isPrefixOf "subject:".toList (l0.map Char.toLower) then
        (pyStrip (dropThroughColon l0), rest)
      else firstNonBlank (l0 :: rest)

/-- The part of parse_subject_and_body that runs on the stripped text:
empty text gives two empty strings, otherwise split into right-trimmed
lines, dispatch on the first line, and join the body lines by newlines
with leading newlines removed. -/
def parseStripped (text : PyStr) : PyStr × PyStr :=
  if text = [] then ([], [])
  else
    let sb := parseLines ((splitlines text).map pyRstrip)
    (sb.1, lstripNL (joinNL sb.2))

/-- email_utils.parse_subject_and_body: strip the raw model output and
parse the stripped text into a subject / body pair. -/
def parse_subject_and_body (modelOutput : PyStr) : PyStr × PyStr :=
  parseStripped (pyStrip modelOutput)

/-- The generation result of generate_email: a subject and a body, both
always present. -/
structure GenerationResult where
  subject : PyStr
  body : PyStr
deriving DecidableEq

/-- The tail of generate_email: build the result record from the parsed
model output. -/
def buildGenerationResult (content : PyStr) : GenerationResult :=
  let p := parse_subject_and_body content
  ⟨p.1, p.2⟩

/-- The formatted text of the parser round-trip property: the literal
subject marker, the subject, a blank line, and the body. -/
def fmtSubjectBody (S B : PyStr) : PyStr :=
  "Subject: ".toList ++ S ++ '\n' :: '\n' :: B

/-- Modelled from the amended round-trip claim: the normalization the
parser applies to the body part, namely trailing whitespace removed,
every line right-trimmed, lines rejoined by newlines, and leading blank
lines removed. -/
def specNormalizedBody (B : PyStr) : PyStr :=
  lstripNL (joinNL ((splitlines (pyRstrip B)).map pyRstrip))

/-- Python truthiness of an optional string: None and the empty string
are falsy. -/
def pyTruthy : Option PyStr → Bool
  | none => false
  | some s => !s.isEmpty

/-- generate_email._sanitize_optional_field: None or empty stays absent;
otherwise strip surrounding whitespace, keep at most 200 characters, and
normalize an empty result to absent. -/
def sanitizeOptionalField : Option PyStr → Option PyStr
  | none => none
  | some v =>
      if v = [] then none
      else
        let sanitized := (pyStrip v).take 200
        if sanitized = [] then none else some sanitized

/-- generate_email._format_optional_details: bullet lines for the truthy
optional fields, in the order company note, one liner, how found; empty
when none is present. -/
def formatOptionalDetails (howFound oneLiner companyNote : Option PyStr) : PyStr :=
  let details : List PyStr :=
    (if pyTruthy companyNote then ["- Company insight: ".toList ++ companyNote.getD []] else [])
    ++ (if pyTruthy oneLiner then ["- Highlight: ".toList ++ oneLiner.getD []] else [])
    ++ (if pyTruthy howFound then ["- How found: ".toList ++ howFound.getD []] else [])
  if details = [] then [] else "Extra details:\n".toList ++ joinNL details

/-- The fixed lines that end the user prompt of generate_email._user_prompt. -/
def userPromptTail : List PyStr :=
  [[], "Email structure:".toList,
   "1. One-sentence opening with purpose".toList,
   "2. One short paragraph with personalization".toList,
   "3. One short paragraph with the sender\x27s relevant strength".toList,
   "4. One-sentence CTA".toList,
   "5. Signature".toList,
   [],
   "Each section must be separated by a blank line.".toList,
   [],
   "Personalization rules:".toList,
   "• Only include optional fields if they fit naturally".toList,
   "• Do not force details into the first sentence".toList,
   "• Company insight should be 1 sentence max".toList,
   "• One-liner (strength) must be integrated into the body, not the subject line".toList,
   "• \"How found\" must appear late in the email, never in the opening line".toList,
   [],
   "Make sure the email feels tailored to this scenario and expresses genuine interest.".toList]

/-- generate_email._user_prompt: the structured user message, with the
position block and the optional-details block included only when present. -/
def userPrompt (senderName senderEmail receiverEmail company role : PyStr)
    (position howFound oneLiner companyNote : Option PyStr) : PyStr :=
  let base : List PyStr :=
    ["Write a short, polite cold email with the following details:".toList,
     [], "Sender name:".toList, senderName,
     [], "Sender email:".toList, senderEmail,
     [], "Recipient email:".toList, receiverEmail,
     [], "Company:".toList, company,
     [], "Role:".toList, role]
  let withPos := base ++
    (if pyTruthy position then [[], "Position:".toList, position.getD []] else [])
  let od := formatOptionalDetails howFound oneLiner companyNote
  let withOd := withPos ++ (if od = [] then [] else [[], od])
  joinNL (withOd ++ userPromptTail)

/-- MAX_RETRIES of generate_email. -/
def MAX_RETRIES : Nat := 3

/-- RETRY_DELAY of generate_email, in seconds. -/
def RETRY_DELAY : Nat := 5

/-- FAILURE_THRESHOLD of generate_email. -/
def FAILURE_THRESHOLD : Nat := 3

/-- FAILURE_WINDOW_SECONDS of generate_email. -/
def FAILURE_WINDOW_SECONDS : Nat := 60

/-- CIRCUIT_BREAKER_COOLDOWN of generate_email, in seconds. -/
def CIRCUIT_BREAKER_COOLDOWN : Nat := 300

/-- The default fallback model identifier of generate_email. -/
def FALLBACK_MODEL : String := "mistral-tiny-latest"

/-- An HTTP response, abstracted to its status code. -/
structure Response where
  status : Nat
deriving DecidableEq

/-- The error taxonomy raised by the invocation layer; each variant is one
of the RuntimeError messages of generate_email. -/
inductive ApiError where
  /-- Rate limit exhausted after MAX_RETRIES attempts. -/
  | rateLimited : ApiError
  /-- Non-429 HTTP error status. -/
  | upstream (code : Nat) : ApiError
  /-- Circuit breaker open. -/
  | serviceUnavailable : ApiError
  /-- The dead post-loop raise of _make_api_request. -/
  | attemptsExhausted : ApiError
deriving DecidableEq

/-- The process-wide circuit breaker state of generate_email: the deque of
failure timestamps and the open-until timestamp. -/
structure CBState where
  failureTimestamps : List ℤ
  circuitOpenUntil : ℤ
deriving DecidableEq

/-- generate_email._ensure_circuit_allows_call at a given current time. -/
def ensureCircuitAllowsCall (now : ℤ) (st : CBState) : Except ApiError Unit :=
  if now < st.circuitOpenUntil then .error .serviceUnavailable else .ok ()

/-- Whether a recorded failure timestamp is older than the failure window
relative to the current time. -/
def oldFailure (now t : ℤ) : Bool :=
  decide ((FAILURE_WINDOW_SECONDS : ℤ) < now - t)

/-- generate_email._record_failure at a given current time: append the
timestamp, evict entries older than the window, and when the threshold is
reached open the breaker for the cooldown and clear the window. -/
def recordFailure (now : ℤ) (st : CBState) : CBState :=
  let ts := (st.failureTimestamps ++ [now]).dropWhile (oldFailure now)
  if FAILURE_THRESHOLD ≤ ts.length then
    ⟨[], now + (CIRCUIT_BREAKER_COOLDOWN : ℤ)⟩
  else
    ⟨ts, st.circuitOpenUntil⟩

/-- generate_email._record_success: clear the failure window when it is
non-empty. -/
def recordSuccess (st : CBState) : CBState :=
  if st.failureTimestamps = [] then st else ⟨[], st.circuitOpenUntil⟩

/-- The retry loop of generate_email._make_api_request over the remaining
attempt numbers, with the network modelled as an oracle from call index to
response.  Returns the result, the number of network calls made, and the
total seconds slept. -/
def reqLoopGo (net : Nat → Response) (k : Nat) :
    List Nat → Except ApiError Response × Nat × Nat
  | [] => (.error .attemptsExhausted, 0, 0)
  | attempt :: restAttempts =>
      let r := net k
      if r.status = 429 then
        if attempt < MAX_RETRIES - 1 then
          let out := reqLoopGo net (k + 1) restAttempts
          (out.1, out.2.1 + 1, out.2.2 + RETRY_DELAY)
        else (.error .rateLimited, 1, 0)
      else if 400 ≤ r.status then (.error (.upstream r.status), 1, 0)
      else (.ok r, 1, 0)

/-- generate_email._make_api_request starting at network call index k:
iterate the attempts 0, 1, 2. -/
def makeApiRequest (net : Nat → Response) (k : Nat) :
    Except ApiError Response × Nat × Nat :=
  reqLoopGo net k (List.range MAX_RETRIES)

deriving instance DecidableEq for Except

/-- The observable outcome of one logical call of
generate_email._invoke_with_fallback: the result, the breaker state after
the call, the model used by each network call in order, and the total
seconds slept. -/
structure InvokeOutcome where
  result : Except ApiError Response
  state : CBState
  requests : List String
  slept : Nat
deriving DecidableEq

/-- generate_email._invoke_with_fallback, with the clock modelled as an
oracle from reading index to time: reading 0 is the initial circuit
check, reading 1 the failure record after the primary, reading 2 the
circuit re-check before the fallback, reading 3 the failure record after
the fallback. -/
def invokeWithFallback (net : Nat → Response) (tm : Nat → ℤ)
    (model : String) (st : CBState) : InvokeOutcome :=
  match ensureCircuitAllowsCall (tm 0) st with
  | .error e => ⟨.error e, st, [], 0⟩
  | .ok _ =>
      let out1 := makeApiRequest net 0
      match out1.1 with
      | .ok r => ⟨.ok r, recordSuccess st, List.replicate out1.2.1 model, out1.2.2⟩
      | .error e =>
          let st1 := recordFailure (tm 1) st
          if model = FALLBACK_MODEL then
            ⟨.error e, st1, List.replicate out1.2.1 model, out1.2.2⟩
          else
            match ensureCircuitAllowsCall (tm 2) st1 with
            | .error e2 => ⟨.error e2, st1, List.replicate out1.2.1 model, out1.2.2⟩
            | .ok _ =>
                let out2 := makeApiRequest net out1.2.1
                match out2.1 with
                | .ok r =>
                    ⟨.ok r, recordSuccess st1,
                     List.replicate out1.2.1 model ++ List.replicate out2.2.1 FALLBACK_MODEL,
                     out1.2.2 + out2.2.2⟩
                | .error e3 =>
                    ⟨.error e3, recordFailure (tm 3) st1,
                     List.replicate out1.2.1 model ++ List.replicate out2.2.1 FALLBACK_MODEL,
                     out1.2.2 + out2.2.2⟩

end ColdEmail

namespace ColdEmail

/-! Supporting lemmas about the Python string primitives. -/

lemma dropWhile_self_idem {α : Type} (p : α → Bool) (l : List α) :
    (l.dropWhile p).dropWhile p = l.dropWhile p := by
  induction l with
  | nil => rfl
  | cons a l ih =>
      by_cases h : p a = true
      · simp [List.dropWhile_cons, h, ih]
      · simp [List.dropWhile_cons, h]

lemma pyRstrip_append (xs ys : PyStr) :
    pyRstrip (xs ++ ys) =
      if pyRstrip ys = [] then pyRstrip xs else xs ++ pyRstrip ys := by
  unfold pyRstrip
  rw [List.reverse_append, List.dropWhile_append]
  by_cases h : ys.reverse.dropWhile isPySpace = []
  · simp [h]
  · have h2 : (ys.reverse.dropWhile isPySpace).isEmpty = false := by
      simp [List.isEmpty_iff, h]
    simp [h2, h]

lemma pyRstrip_idem (s : PyStr) : pyRstrip (pyRstrip s) = pyRstrip s := by
  unfold pyRstrip
  rw [List.reverse_reverse, dropWhile_self_idem]

lemma mem_of_mem_pyRstrip {c : Char} {s : PyStr} (h : c ∈ pyRstrip s) : c ∈ s := by
  unfold pyRstrip at h
  rw [List.mem_reverse] at h
  exact List.mem_reverse.mp (List.Sublist.mem h (List.dropWhile_sublist _))

lemma pyLstrip_cons_not_space {c : Char} (s : PyStr) (h : isPySpace c = false) :
    pyLstrip (c :: s) = c :: s := by
  simp [pyLstrip, List.dropWhile_cons, h]

lemma pyRstrip_all_space {s : PyStr} (h : ∀ c ∈ s, isPySpace c = true) :
    pyRstrip s = [] := by
  unfold pyRstrip
  rw [List.reverse_eq_nil_iff, List.dropWhile_eq_nil_iff]
  intro c hc
  exact h c (List.mem_reverse.mp hc)

lemma splitlinesAux_noLB :
    ∀ (s : PyStr), (∀ c ∈ s, isLineBreak c = false) →
      ∀ acc : PyStr, splitlinesAux s acc = [acc.reverse ++ s] := by
  intro s
  induction s with
  | nil => intro _ acc; simp [splitlinesAux]
  | cons c rest ih =>
      intro h acc
      have hc : isLineBreak c = false := h c (List.mem_cons_self c rest)
      have hcr : c ≠ '\r' := by
        intro e; subst e; revert hc; decide
      have hstep : splitlinesAux (c :: rest) acc = splitlinesAux rest (c :: acc) := by
        simp [splitlinesAux, hcr, hc]
      rw [hstep, ih (fun d hd => h d (List.mem_cons_of_mem _ hd)) (c :: acc)]
      simp

lemma splitlinesAux_append_nl :
    ∀ (a : PyStr), (∀ c ∈ a, isLineBreak c = false) →
      ∀ (rest acc : PyStr), rest ≠ [] →
        splitlinesAux (a ++ '\n' :: rest) acc =
          (acc.reverse ++ a) :: splitlinesAux rest [] := by
  intro a
  induction a with
  | nil =>
      intro _ rest acc hr
      have hnl : isLineBreak '\n' = true := by decide
      simp [splitlinesAux, hr, hnl]
  | cons c a' ih =>
      intro h rest acc hr
      have hc : isLineBreak c = false := h c (List.mem_cons_self c a')
      have hcr : c ≠ '\r' := by
        intro e; subst e; revert hc; decide
      have hstep : splitlinesAux (c :: (a' ++ '\n' :: rest)) acc =
          splitlinesAux (a' ++ '\n' :: rest) (c :: acc) := by
        simp [splitlinesAux, hcr, hc]
      rw [List.cons_append, hstep,
        ih (fun d hd => h d (List.mem_cons_of_mem _ hd)) rest (c :: acc) hr]
      simp

lemma splitlines_noLB (s : PyStr) (hs : s ≠ [])
    (h : ∀ c ∈ s, isLineBreak c = false) : splitlines s = [s] := by
  rw [splitlines, if_neg hs, splitlinesAux_noLB s h []]
  simp

lemma splitlines_append_nl (a rest : PyStr)
    (h : ∀ c ∈ a, isLineBreak c = false) (hr : rest ≠ []) :
    splitlines (a ++ '\n' :: rest) = a :: splitlines rest := by
  have hne : a ++ '\n' :: rest ≠ [] := by simp
  rw [splitlines, if_neg hne, splitlinesAux_append_nl a h rest [] hr,
    splitlines, if_neg hr]
  simp

lemma lstripNL_joinNL_nil_cons (L : List PyStr) :
    lstripNL (joinNL ([] :: L)) = lstripNL (joinNL L) := by
  cases L with
  | nil => rfl
  | cons l ls => simp [joinNL, lstripNL, List.dropWhile_cons]

lemma isPrefixOf_append_self : ∀ xs ys : List Char,
    List.isPrefixOf xs (xs ++ ys) = true := by
  intro xs
  induction xs with
  | nil => intro ys; cases ys <;> rfl
  | cons a as ih => intro ys; simp [List.isPrefixOf, ih ys]

lemma subject_check_pre (X : PyStr) :
    List.isPrefixOf "subject:".toList
      (("Subject: ".toList ++ X).map Char.toLower) = true := by
  rw [List.map_append]
  have h1 : ("Subject: ".toList).map Char.toLower = "subject: ".toList := by decide
  have h2 : "subject: ".toList = "subject:".toList ++ [' '] := by decide
  rw [h1, h2, List.append_assoc]
  exact isPrefixOf_append_self _ _

lemma dropThroughColon_pre (X : PyStr) :
    dropThroughColon ("Subject: ".toList ++ X) = ' ' :: X := by
  show dropThroughColon
      ('S' :: 'u' :: 'b' :: 'j' :: 'e' :: 'c' :: 't' :: ':' :: ' ' :: X) = ' ' :: X
  simp [dropThroughColon]

lemma parseStripped_ne {text : PyStr} (h : text ≠ []) :
    parseStripped text =
      ((parseLines ((splitlines text).map pyRstrip)).1,
        lstripNL (joinNL (parseLines ((splitlines text).map pyRstrip)).2)) := by
  simp [parseStripped, h]

lemma pyRstrip_nil : pyRstrip [] = [] := rfl

lemma pyStrip_space_rstrip (S : PyStr) (h : pyRstrip S ≠ []) :
    pyStrip (' ' :: pyRstrip S) = pyStrip S := by
  have h1 : pyRstrip (' ' :: pyRstrip S) = ' ' :: pyRstrip S := by
    have h2 := pyRstrip_append [' '] (pyRstrip S)
    rw [pyRstrip_idem, if_neg h] at h2
    simpa using h2
  simp only [pyStrip, h1]
  simp [pyLstrip, List.dropWhile_cons, show isPySpace ' ' = true from by decide]

lemma pyStrip_of_rstrip_nil {S : PyStr} (h : pyRstrip S = []) : pyStrip S = [] := by
  rw [pyStrip, h]; rfl

lemma specNormalizedBody_of_rstrip_nil {B : PyStr} (h : pyRstrip B = []) :
    specNormalizedBody B = [] := by
  rw [specNormalizedBody, h]; rfl

lemma parse_fmt_main (S B : PyStr) (hS : ∀ c ∈ S, isLineBreak c = false) :
    parse_subject_and_body (fmtSubjectBody S B) = (pyStrip S, specNormalizedBody B) := by
  have preNoLB : ∀ c ∈ ("Subject: ".toList : PyStr), isLineBreak c = false := by decide
  have hSspace : isPySpace 'S' = false := by decide
  by_cases hB : pyRstrip B = []
  · -- the body is pure whitespace: the strip eats through the separator
    have htail : pyRstrip (('\n' :: '\n' :: B : PyStr)) = [] := by
      have he : ('\n' :: '\n' :: B : PyStr) = ['\n', '\n'] ++ B := rfl
      rw [he, pyRstrip_append, if_pos hB]; decide
    have hfmt : pyRstrip (fmtSubjectBody S B) =
        if pyRstrip S = [] then pyRstrip ("Subject: ".toList)
        else "Subject: ".toList ++ pyRstrip S := by
      simp only [fmtSubjectBody]
      rw [pyRstrip_append, if_pos htail, pyRstrip_append]
    by_cases hS0 : pyRstrip S = []
    · have htext : pyStrip (fmtSubjectBody S B) = "Subject:".toList := by
        rw [pyStrip, hfmt, if_pos hS0]; decide
      rw [parse_subject_and_body, htext,
        show parseStripped ("Subject:".toList) = ([], []) from by decide,
        pyStrip_of_rstrip_nil hS0, specNormalizedBody_of_rstrip_nil hB]
    · have htext : pyStrip (fmtSubjectBody S B) = "Subject: ".toList ++ pyRstrip S := by
        rw [pyStrip, hfmt, if_neg hS0]
        show pyLstrip ('S' :: ("ubject: ".toList ++ pyRstrip S)) = _
        rw [pyLstrip_cons_not_space _ hSspace]
        rfl
      have hXnoLB : ∀ c ∈ pyRstrip S, isLineBreak c = false :=
        fun c hc => hS c (mem_of_mem_pyRstrip hc)
      have hlineNoLB : ∀ c ∈ ("Subject: ".toList ++ pyRstrip S : PyStr),
          isLineBreak c = false := by
        intro c hc
        rcases List.mem_append.mp hc with h | h
        · exact preNoLB c h
        · exact hXnoLB c h
      have hne : ("Subject: ".toList ++ pyRstrip S : PyStr) ≠ [] := by simp
      have hr1 : pyRstrip ("Subject: ".toList ++ pyRstrip S) =
          "Subject: ".toList ++ pyRstrip S := by
        rw [pyRstrip_append, pyRstrip_idem, if_neg hS0]
      rw [parse_subject_and_body, htext, parseStripped_ne hne,
        splitlines_noLB _ hne hlineNoLB]
      simp only [List.map_cons, List.map_nil, hr1]
      simp only [parseLines, subject_check_pre, if_true]
      rw [dropThroughColon_pre, pyStrip_space_rstrip S hS0,
        specNormalizedBody_of_rstrip_nil hB]
      rfl
  · -- the body has content after right-stripping
    have hgroup : fmtSubjectBody S B =
        (("Subject: ".toList ++ S) ++ ['\n', '\n']) ++ B := by
      simp only [fmtSubjectBody, List.append_assoc]
      rfl
    have htail : pyRstrip (fmtSubjectBody S B) =
        ("Subject: ".toList ++ S) ++ '\n' :: '\n' :: pyRstrip B := by
      rw [hgroup, pyRstrip_append, if_neg hB, List.append_assoc]
      rfl
    have htext : pyStrip (fmtSubjectBody S B) =
        ("Subject: ".toList ++ S) ++ '\n' :: '\n' :: pyRstrip B := by
      rw [pyStrip, htail]
      show pyLstrip ('S' :: (("ubject: ".toList ++ S) ++ '\n' :: '\n' :: pyRstrip B)) = _
      rw [pyLstrip_cons_not_space _ hSspace]
      rfl
    have hpreS : ∀ c ∈ ("Subject: ".toList ++ S : PyStr), isLineBreak c = false := by
      intro c hc
      rcases List.mem_append.mp hc with h | h
      · exact preNoLB c h
      · exact hS c h
    have hrestne : ('\n' :: pyRstrip B : PyStr) ≠ [] := by simp
    have hsplit1 : splitlines (('\n' :: pyRstrip B : PyStr)) =
        [] :: splitlines (pyRstrip B) := by
      have h0 := splitlines_append_nl [] (pyRstrip B) (by intro c hc; cases hc) hB
      simpa using h0
    have hsplit : splitlines (("Subject: ".toList ++ S) ++ '\n' :: '\n' :: pyRstrip B) =
        ("Subject: ".toList ++ S) :: [] :: splitlines (pyRstrip B) := by
      rw [splitlines_append_nl _ _ hpreS hrestne, hsplit1]
    have hne2 : ((("Subject: ".toList ++ S)) ++ '\n' :: '\n' :: pyRstrip B : PyStr) ≠ [] := by
      simp
    rw [parse_subject_and_body, htext, parseStripped_ne hne2, hsplit]
    simp only [List.map_cons, pyRstrip_nil]
    rw [pyRstrip_append]
    by_cases hS0 : pyRstrip S = []
    · rw [if_pos hS0, show pyRstrip ("Subject: ".toList) = "Subject:".toList from by decide]
      simp only [parseLines,
        show List.isPrefixOf "subject:".toList
          (("Subject:".toList).map Char.toLower) = true from by decide, if_true]
      rw [lstripNL_joinNL_nil_cons,
        show pyStrip (dropThroughColon ("Subject:".toList)) = [] from by decide,
        pyStrip_of_rstrip_nil hS0]
      rfl
    · rw [if_neg hS0]
      simp only [parseLines, subject_check_pre, if_true]
      rw [dropThroughColon_pre, pyStrip_space_rstrip S hS0, lstripNL_joinNL_nil_cons]
      rfl

/-! Supporting lemmas about the circuit breaker and the invoker. -/

lemma recordSuccess_failureTimestamps (st : CBState) :
    (recordSuccess st).failureTimestamps = [] := by
  by_cases h : st.failureTimestamps = [] <;> simp [recordSuccess, h]

lemma recordSuccess_circuitOpenUntil (st : CBState) :
    (recordSuccess st).circuitOpenUntil = st.circuitOpenUntil := by
  by_cases h : st.failureTimestamps = [] <;> simp [recordSuccess, h]

lemma invoke_open {net : Nat → Response} {tm : Nat → ℤ} {model : String}
    {st : CBState} (h : tm 0 < st.circuitOpenUntil) :
    invokeWithFallback net tm model st = ⟨.error .serviceUnavailable, st, [], 0⟩ := by
  simp [invokeWithFallback, ensureCircuitAllowsCall, h]

lemma invoke_primary_ok {net : Nat → Response} {tm : Nat → ℤ} {model : String}
    {st : CBState} (h : ¬ tm 0 < st.circuitOpenUntil) {r : Response}
    (hr : (makeApiRequest net 0).1 = .ok r) :
    invokeWithFallback net tm model st =
      ⟨.ok r, recordSuccess st, List.replicate (makeApiRequest net 0).2.1 model,
        (makeApiRequest net 0).2.2⟩ := by
  simp [invokeWithFallback, ensureCircuitAllowsCall, h, hr]

lemma invoke_err_same_model {net : Nat → Response} {tm : Nat → ℤ} {model : String}
    {st : CBState} (h : ¬ tm 0 < st.circuitOpenUntil) {e : ApiError}
    (he : (makeApiRequest net 0).1 = .error e) (hm : model = FALLBACK_MODEL) :
    invokeWithFallback net tm model st =
      ⟨.error e, recordFailure (tm 1) st,
        List.replicate (makeApiRequest net 0).2.1 model, (makeApiRequest net 0).2.2⟩ := by
  simp [invokeWithFallback, ensureCircuitAllowsCall, h, he, hm]

lemma invoke_fallback_blocked {net : Nat → Response} {tm : Nat → ℤ} {model : String}
    {st : CBState} (h : ¬ tm 0 < st.circuitOpenUntil) {e : ApiError}
    (he : (makeApiRequest net 0).1 = .error e) (hm : model ≠ FALLBACK_MODEL)
    (h2 : tm 2 < (recordFailure (tm 1) st).circuitOpenUntil) :
    invokeWithFallback net tm model st =
      ⟨.error .serviceUnavailable, recordFailure (tm 1) st,
        List.replicate (makeApiRequest net 0).2.1 model, (makeApiRequest net 0).2.2⟩ := by
  simp [invokeWithFallback, ensureCircuitAllowsCall, h, he, hm, h2]

lemma invoke_fallback_ok {net : Nat → Response} {tm : Nat → ℤ} {model : String}
    {st : CBState} (h : ¬ tm 0 < st.circuitOpenUntil) {e : ApiError}
    (he : (makeApiRequest net 0).1 = .error e) (hm : model ≠ FALLBACK_MODEL)
    (h2 : ¬ tm 2 < (recordFailure (tm 1) st).circuitOpenUntil) {r : Response}
    (hr2 : (makeApiRequest net (makeApiRequest net 0).2.1).1 = .ok r) :
    invokeWithFallback net tm model st =
      ⟨.ok r, recordSuccess (recordFailure (tm 1) st),
        List.replicate (makeApiRequest net 0).2.1 model ++
          List.replicate (makeApiRequest net (makeApiRequest net 0).2.1).2.1 FALLBACK_MODEL,
        (makeApiRequest net 0).2.2 + (makeApiRequest net (makeApiRequest net 0).2.1).2.2⟩ := by
  simp [invokeWithFallback, ensureCircuitAllowsCall, h, he, hm, h2, hr2]

lemma invoke_fallback_err {net : Nat → Response} {tm : Nat → ℤ} {model : String}
    {st : CBState} (h : ¬ tm 0 < st.circuitOpenUntil) {e : ApiError}
    (he : (makeApiRequest net 0).1 = .error e) (hm : model ≠ FALLBACK_MODEL)
    (h2 : ¬ tm 2 < (recordFailure (tm 1) st).circuitOpenUntil) {e2 : ApiError}
    (he2 : (makeApiRequest net (makeApiRequest net 0).2.1).1 = .error e2) :
    invokeWithFallback net tm model st =
      ⟨.error e2, recordFailure (tm 3) (recordFailure (tm 1) st),
        List.replicate (makeApiRequest net 0).2.1 model ++
          List.replicate (makeApiRequest net (makeApiRequest net 0).2.1).2.1 FALLBACK_MODEL,
        (makeApiRequest net 0).2.2 + (makeApiRequest net (makeApiRequest net 0).2.1).2.2⟩ := by
  simp [invokeWithFallback, ensureCircuitAllowsCall, h, he, hm, h2, he2]

lemma reqLoopGo_calls_pos (net : Nat → Response) (k attempt : Nat) (rest : List Nat) :
    1 ≤ (reqLoopGo net k (attempt :: rest)).2.1 := by
  simp only [reqLoopGo]
  by_cases h429 : (net k).status = 429
  · by_cases hlt : attempt < MAX_RETRIES - 1
    · simp [h429, hlt]
    · simp [h429, hlt]
  · by_cases h400 : 400 ≤ (net k).status
    · simp [h429, h400]
    · simp [h429, h400]

lemma makeApiRequest_calls_pos (net : Nat → Response) (k : Nat) :
    1 ≤ (makeApiRequest net k).2.1 :=
  reqLoopGo_calls_pos net k 0 [1, 2]

lemma dropWhile_old_ne_nil (now : ℤ) (ts : List ℤ) :
    (ts ++ [now]).dropWhile (oldFailure now) ≠ [] := by
  intro h
  rw [List.dropWhile_eq_nil_iff] at h
  have h2 := h now (by simp)
  simp only [oldFailure, decide_eq_true_eq] at h2
  omega

lemma reqLoop_all429 (net : Nat → Response) (k : Nat)
    (h : ∀ i, i < 3 → (net (k + i)).status = 429) :
    makeApiRequest net k = (.error .rateLimited, 3, 10) := by
  have h0 : (net k).status = 429 := by simpa using h 0 (by omega)
  have h1 : (net (k + 1)).status = 429 := h 1 (by omega)
  have h2 : (net (k + 2)).status = 429 := h 2 (by omega)
  have hrange : List.range MAX_RETRIES = [0, 1, 2] := by decide
  rw [makeApiRequest, hrange]
  simp [reqLoopGo, h0, h1, h2, MAX_RETRIES, RETRY_DELAY, Nat.add_assoc]

lemma sanitize_all_space {v : PyStr} (hv : ∀ c ∈ v, isPySpace c = true) :
    sanitizeOptionalField (some v) = none := by
  by_cases hnil : v = []
  · simp [sanitizeOptionalField, hnil]
  · have h1 : pyStrip v = [] := pyStrip_of_rstrip_nil (pyRstrip_all_space hv)
    simp [sanitizeOptionalField, hnil, h1]

/-! The claims. -/

/-- C1: while the circuit breaker is open (current time strictly below the
open-until timestamp) a logical call fails immediately with the
service-unavailable error and performs zero network calls; the check also
runs again before the fallback attempt, so when the breaker opens from
the failure recorded after the primary attempt, the call fails with the
service-unavailable error having made only the primary network calls. -/
theorem claim1_circuit_open_fails_fast (net : Nat → Response) (tm : Nat → ℤ)
    (model : String) (st : CBState) :
    (tm 0 < st.circuitOpenUntil →
      invokeWithFallback net tm model st = ⟨.error .serviceUnavailable, st, [], 0⟩)
    ∧ (∀ e : ApiError, ¬ tm 0 < st.circuitOpenUntil →
        (makeApiRequest net 0).1 = .error e → model ≠ FALLBACK_MODEL →
        tm 2 < (recordFailure (tm 1) st).circuitOpenUntil →
        invokeWithFallback net tm model st =
          ⟨.error .serviceUnavailable, recordFailure (tm 1) st,
            List.replicate (makeApiRequest net 0).2.1 model,
            (makeApiRequest net 0).2.2⟩) := by
  constructor
  · intro h
    exact invoke_open h
  · intro e h0 he hm h2
    exact invoke_fallback_blocked h0 he hm h2

/-- Witness for C1 at concrete oracles: a breaker open until time 10 blocks
a call at time 0 with no network calls, and a breaker that opens from the
third recent failure blocks the fallback after one primary call. -/
theorem claim1_witness :
    invokeWithFallback (fun _ => ⟨200⟩) (fun _ => 0) "m" ⟨[], 10⟩ =
      ⟨.error .serviceUnavailable, ⟨[], 10⟩, [], 0⟩
    ∧ invokeWithFallback (fun _ => ⟨500⟩) (fun _ => 100) "m" ⟨[90, 95], 0⟩ =
      ⟨.error .serviceUnavailable, ⟨[], 400⟩, ["m"], 0⟩ := by
  constructor
  · exact (claim1_circuit_open_fails_fast (fun _ => ⟨200⟩) (fun _ => 0) "m"
      ⟨[], 10⟩).1 (by decide)
  · have h := (claim1_circuit_open_fails_fast (fun _ => ⟨500⟩) (fun _ => 100) "m"
      ⟨[90, 95], 0⟩).2 (.upstream 500) (by decide) (by decide) (by decide) (by decide)
    exact h.trans (by decide)

/-- C2: the breaker opens exactly when, after appending the current
failure and evicting entries older than the sixty-second window relative
to now, at least the threshold of three timestamps remain; opening sets
the open-until timestamp to now plus the cooldown of three hundred
seconds and clears the window, and below the threshold the open-until
timestamp is untouched; in particular three failures within sixty seconds
of each other open the breaker. -/
theorem claim2_breaker_opens_at_threshold (now : ℤ) (st : CBState) :
    (((recordFailure now st).failureTimestamps = [] ∧
        (recordFailure now st).circuitOpenUntil =
          now + (CIRCUIT_BREAKER_COOLDOWN : ℤ)) ↔
      FAILURE_THRESHOLD ≤
        ((st.failureTimestamps ++ [now]).dropWhile (oldFailure now)).length)
    ∧ (((st.failureTimestamps ++ [now]).dropWhile (oldFailure now)).length <
          FAILURE_THRESHOLD →
        recordFailure now st =
          ⟨(st.failureTimestamps ++ [now]).dropWhile (oldFailure now),
            st.circuitOpenUntil⟩)
    ∧ (∀ u t1 t2 t3 : ℤ, t1 ≤ t2 → t2 ≤ t3 →
        t3 - t1 ≤ (FAILURE_WINDOW_SECONDS : ℤ) →
        recordFailure t3 (recordFailure t2 (recordFailure t1 ⟨[], u⟩)) =
          ⟨[], t3 + (CIRCUIT_BREAKER_COOLDOWN : ℤ)⟩) := by
  refine ⟨?_, ?_, ?_⟩
  · by_cases hth : FAILURE_THRESHOLD ≤
        ((st.failureTimestamps ++ [now]).dropWhile (oldFailure now)).length
    · simp [recordFailure, hth]
    · simp [recordFailure, hth, dropWhile_old_ne_nil now st.failureTimestamps]
  · intro h
    simp [recordFailure, show ¬ FAILURE_THRESHOLD ≤
      ((st.failureTimestamps ++ [now]).dropWhile (oldFailure now)).length by omega]
  · intro u t1 t2 t3 h12 h23 h13
    have h13l : t3 - t1 ≤ 60 := by
      simp only [FAILURE_WINDOW_SECONDS] at h13
      push_cast at h13
      exact h13
    have hx1 : oldFailure t1 t1 = false := by
      simp only [oldFailure, decide_eq_false_iff_not]
      simp [FAILURE_WINDOW_SECONDS]
    have e1 : recordFailure t1 ⟨[], u⟩ = ⟨[t1], u⟩ := by
      simp [recordFailure, hx1, FAILURE_THRESHOLD]
    have hx2 : oldFailure t2 t1 = false := by
      simp only [oldFailure, decide_eq_false_iff_not, FAILURE_WINDOW_SECONDS]
      push_cast
      omega
    have e2 : recordFailure t2 ⟨[t1], u⟩ = ⟨[t1, t2], u⟩ := by
      simp [recordFailure, hx2, FAILURE_THRESHOLD]
    have hx3 : oldFailure t3 t1 = false := by
      simp only [oldFailure, decide_eq_false_iff_not, FAILURE_WINDOW_SECONDS]
      push_cast
      omega
    have e3 : recordFailure t3 ⟨[t1, t2], u⟩ = ⟨[], t3 + (CIRCUIT_BREAKER_COOLDOWN : ℤ)⟩ := by
      simp [recordFailure, hx3, FAILURE_THRESHOLD]
    rw [e1, e2, e3]

/-- Witness for C2 at concrete inputs: a first failure below the threshold
only extends the window, and three failures at times 0, 30, 60 open the
breaker until time 360. -/
theorem claim2_witness :
    recordFailure 0 ⟨[], 5⟩ = ⟨[0], 5⟩
    ∧ recordFailure 60 (recordFailure 30 (recordFailure 0 ⟨[], 0⟩)) = ⟨[], 360⟩ := by
  constructor
  · have h := (claim2_breaker_opens_at_threshold 0 ⟨[], 5⟩).2.1 (by decide)
    exact h.trans (by decide)
  · have h := (claim2_breaker_opens_at_threshold 0 ⟨[], 0⟩).2.2 0 0 30 60
      (by decide) (by decide) (by decide)
    exact h.trans (by decide)

/-- C3: within one attempt sequence against a single model, three
consecutive rate-limit responses exhaust the three attempts and raise the
rate-limited error after exactly three network calls and two five-second
sleeps, with no fourth attempt; a first non-429 response with status at
least 400 raises the upstream error immediately with no further call; and
a first non-429 success response, on any attempt including the third, is
returned. -/
theorem claim3_retry_policy (net : Nat → Response) :
    ((∀ i, i < 3 → (net i).status = 429) →
      makeApiRequest net 0 = (.error .rateLimited, 3, 10))
    ∧ (∀ j, j < 3 → (∀ i, i < j → (net i).status = 429) →
        (net j).status ≠ 429 → 400 ≤ (net j).status →
        makeApiRequest net 0 =
          (.error (.upstream (net j).status), j + 1, RETRY_DELAY * j))
    ∧ (∀ j, j < 3 → (∀ i, i < j → (net i).status = 429) →
        (net j).status ≠ 429 → (net j).status < 400 →
        makeApiRequest net 0 = (.ok (net j), j + 1, RETRY_DELAY * j)) := by
  have hrange : List.range MAX_RETRIES = [0, 1, 2] := by decide
  refine ⟨?_, ?_, ?_⟩
  · intro h
    exact reqLoop_all429 net 0 (by intro i hi; simpa using h i hi)
  · intro j hj h429 hne h400
    interval_cases j
    · rw [makeApiRequest, hrange]
      simp [reqLoopGo, hne, h400]
    · have h0 : (net 0).status = 429 := h429 0 (by omega)
      rw [makeApiRequest, hrange]
      simp [reqLoopGo, h0, hne, h400, MAX_RETRIES, RETRY_DELAY]
    · have h0 : (net 0).status = 429 := h429 0 (by omega)
      have h1 : (net 1).status = 429 := h429 1 (by omega)
      rw [makeApiRequest, hrange]
      simp [reqLoopGo, h0, h1, hne, h400, MAX_RETRIES, RETRY_DELAY]
  · intro j hj h429 hne h400
    interval_cases j
    · rw [makeApiRequest, hrange]
      simp [reqLoopGo, hne, show ¬ 400 ≤ (net 0).status by omega]
    · have h0 : (net 0).status = 429 := h429 0 (by omega)
      rw [makeApiRequest, hrange]
      simp [reqLoopGo, h0, hne, show ¬ 400 ≤ (net 1).status by omega,
        MAX_RETRIES, RETRY_DELAY]
    · have h0 : (net 0).status = 429 := h429 0 (by omega)
      have h1 : (net 1).status = 429 := h429 1 (by omega)
      rw [makeApiRequest, hrange]
      simp [reqLoopGo, h0, h1, hne, show ¬ 400 ≤ (net 2).status by omega,
        MAX_RETRIES, RETRY_DELAY]

/-- Witness for C3 at concrete response sequences: three 429 responses
raise the rate-limited error after three calls and ten seconds of sleep, a
503 after one 429 raises the upstream error on the second call, and a 200
on the third attempt after two 429 responses succeeds. -/
theorem claim3_witness :
    makeApiRequest (fun _ => ⟨429⟩) 0 = (.error .rateLimited, 3, 10)
    ∧ makeApiRequest (fun i => if i = 0 then ⟨429⟩ else ⟨503⟩) 0 =
        (.error (.upstream 503), 2, 5)
    ∧ makeApiRequest (fun i => if i < 2 then ⟨429⟩ else ⟨200⟩) 0 =
        (.ok ⟨200⟩, 3, 10) := by
  refine ⟨?_, ?_, ?_⟩
  · exact (claim3_retry_policy (fun _ => ⟨429⟩)).1 (by intro i _; rfl)
  · have h := (claim3_retry_policy (fun i => if i = 0 then ⟨429⟩ else ⟨503⟩)).2.1 1
      (by omega) (by intro i hi; interval_cases i; rfl) (by decide) (by decide)
    exact h.trans (by decide)
  · have h := (claim3_retry_policy (fun i => if i < 2 then ⟨429⟩ else ⟨200⟩)).2.2 2
      (by omega) (by intro i hi; interval_cases i <;> rfl) (by decide) (by decide)
    exact h.trans (by decide)

/-- C4: when the primary attempt sequence fails with the circuit still
closed, a primary model equal to the designated fallback model causes no
fallback attempt and the primary error is re-raised after the failure is
recorded; a different primary model causes exactly one fallback attempt
sequence, with the same retry policy, against the fallback model (at
least one call, all labelled with the fallback model), whose outcome is
the outcome of the logical call. -/
theorem claim4_fallback_substitution (net : Nat → Response) (tm : Nat → ℤ)
    (model : String) (st : CBState) :
    (∀ e : ApiError, ¬ tm 0 < st.circuitOpenUntil →
      (makeApiRequest net 0).1 = .error e → model = FALLBACK_MODEL →
      invokeWithFallback net tm model st =
        ⟨.error e, recordFailure (tm 1) st,
          List.replicate (makeApiRequest net 0).2.1 model,
          (makeApiRequest net 0).2.2⟩)
    ∧ (∀ e : ApiError, ¬ tm 0 < st.circuitOpenUntil →
        (makeApiRequest net 0).1 = .error e → model ≠ FALLBACK_MODEL →
        ¬ tm 2 < (recordFailure (tm 1) st).circuitOpenUntil →
        (invokeWithFallback net tm model st).requests =
          List.replicate (makeApiRequest net 0).2.1 model ++
            List.replicate
              (makeApiRequest net (makeApiRequest net 0).2.1).2.1 FALLBACK_MODEL
        ∧ 1 ≤ (makeApiRequest net (makeApiRequest net 0).2.1).2.1
        ∧ (∀ r : Response,
            (makeApiRequest net (makeApiRequest net 0).2.1).1 = .ok r →
            (invokeWithFallback net tm model st).result = .ok r)
        ∧ (∀ e2 : ApiError,
            (makeApiRequest net (makeApiRequest net 0).2.1).1 = .error e2 →
            (invokeWithFallback net tm model st).result = .error e2)) := by
  constructor
  · intro e h0 he hm
    exact invoke_err_same_model h0 he hm
  · intro e h0 he hm h2
    refine ⟨?_, makeApiRequest_calls_pos net _, ?_, ?_⟩
    · cases hout : (makeApiRequest net (makeApiRequest net 0).2.1).1 with
      | ok r => rw [invoke_fallback_ok h0 he hm h2 hout]
      | error e2 => rw [invoke_fallback_err h0 he hm h2 hout]
    · intro r hr
      rw [invoke_fallback_ok h0 he hm h2 hr]
    · intro e2 he2
      rw [invoke_fallback_err h0 he hm h2 he2]

/-- Witness for C4 at concrete oracles: with the primary already the
fallback model a failing call makes one request and re-raises, and with a
distinct primary the requests are one primary call followed by one
fallback call. -/
theorem claim4_witness :
    invokeWithFallback (fun _ => ⟨500⟩) (fun _ => 0) "mistral-tiny-latest" ⟨[], 0⟩ =
      ⟨.error (.upstream 500), ⟨[0], 0⟩, ["mistral-tiny-latest"], 0⟩
    ∧ (invokeWithFallback (fun _ => ⟨500⟩) (fun _ => 0) "m" ⟨[], 0⟩).requests =
        ["m", "mistral-tiny-latest"] := by
  constructor
  · have h := (claim4_fallback_substitution (fun _ => ⟨500⟩) (fun _ => 0)
      "mistral-tiny-latest" ⟨[], 0⟩).1 (.upstream 500) (by decide) (by decide) rfl
    exact h.trans (by decide)
  · have h := ((claim4_fallback_substitution (fun _ => ⟨500⟩) (fun _ => 0)
      "m" ⟨[], 0⟩).2 (.upstream 500) (by decide) (by decide) (by decide) (by decide)).1
    exact h.trans (by decide)

/-- C5: every successful logical call, whether the success comes from the
primary or from the fallback attempt, leaves the failure-timestamp window
empty in the resulting breaker state. -/
theorem claim5_success_clears_window (net : Nat → Response) (tm : Nat → ℤ)
    (model : String) (st : CBState) :
    ∀ r : Response, (invokeWithFallback net tm model st).result = .ok r →
      (invokeWithFallback net tm model st).state.failureTimestamps = [] := by
  intro r hr
  by_cases h0 : tm 0 < st.circuitOpenUntil
  · rw [invoke_open h0] at hr
    simp at hr
  · cases hout1 : (makeApiRequest net 0).1 with
    | ok r1 =>
        rw [invoke_primary_ok h0 hout1]
        exact recordSuccess_failureTimestamps st
    | error e =>
        by_cases hm : model = FALLBACK_MODEL
        · rw [invoke_err_same_model h0 hout1 hm] at hr
          simp at hr
        · by_cases h2 : tm 2 < (recordFailure (tm 1) st).circuitOpenUntil
          · rw [invoke_fallback_blocked h0 hout1 hm h2] at hr
            simp at hr
          · cases hout2 : (makeApiRequest net (makeApiRequest net 0).2.1).1 with
            | ok r2 =>
                rw [invoke_fallback_ok h0 hout1 hm h2 hout2]
                exact recordSuccess_failureTimestamps _
            | error e2 =>
                rw [invoke_fallback_err h0 hout1 hm h2 hout2] at hr
                simp at hr

/-- Witness for C5: a successful call at a state with a non-empty failure
window leaves the window empty. -/
theorem claim5_witness :
    (invokeWithFallback (fun _ => ⟨200⟩) (fun _ => 0) "m" ⟨[7], 0⟩).state.failureTimestamps
      = [] :=
  claim5_success_clears_window (fun _ => ⟨200⟩) (fun _ => 0) "m" ⟨[7], 0⟩ ⟨200⟩ (by decide)

/-- Counterexample to C6 as stated: for the subject " Hi " (with
surrounding spaces) and the body "a \n\nb" (with a trailing space on its
first line), parsing the formatted text returns neither the subject
exactly, nor the body exactly, nor the body normalized only at its edges:
the subject comes back stripped and the body line comes back
right-trimmed. -/
theorem claim6_counterexample :
    (parse_subject_and_body (fmtSubjectBody " Hi ".toList "a \n\nb".toList)).1 ≠
      " Hi ".toList
    ∧ (parse_subject_and_body (fmtSubjectBody " Hi ".toList "a \n\nb".toList)).2 ≠
        "a \n\nb".toList
    ∧ (parse_subject_and_body (fmtSubjectBody " Hi ".toList "a \n\nb".toList)).2 ≠
        pyStrip ("a \n\nb".toList) := by
  decide

/-- C6 as amended: for any subject S free of line-break characters and
any body B, parsing the formatted text consisting of the subject marker,
S, a blank line, and B yields exactly the pair of S trimmed of
surrounding whitespace and B normalized by removing trailing whitespace,
right-trimming every line, and dropping leading blank lines. -/
theorem claim6_roundtrip_normalized (S B : PyStr)
    (hS : ∀ c ∈ S, isLineBreak c = false) :
    parse_subject_and_body (fmtSubjectBody S B) = (pyStrip S, specNormalizedBody B) :=
  parse_fmt_main S B hS

/-- Witness for C6 at a concrete subject containing a colon and a
concrete body. -/
theorem claim6_witness :
    parse_subject_and_body (fmtSubjectBody "Re: offer".toList "Body line".toList) =
      (pyStrip "Re: offer".toList, specNormalizedBody "Body line".toList) :=
  claim6_roundtrip_normalized "Re: offer".toList "Body line".toList (by decide)

/-- C7: the response parser is a total function that always yields a pair
of two strings, returns two empty strings when the stripped input is
empty, and the generation result always carries both the subject field
and the body field of the parse. -/
theorem claim7_parser_total (s : PyStr) :
    (∃ subj body : PyStr, parse_subject_and_body s = (subj, body))
    ∧ (pyStrip s = [] → parse_subject_and_body s = ([], []))
    ∧ (buildGenerationResult s).subject = (parse_subject_and_body s).1
    ∧ (buildGenerationResult s).body = (parse_subject_and_body s).2 := by
  refine ⟨⟨_, _, rfl⟩, ?_, rfl, rfl⟩
  intro h
  rw [parse_subject_and_body, h]
  rfl

/-- Witness for C7: whitespace-only input parses to two empty strings. -/
theorem claim7_witness : parse_subject_and_body "  \t ".toList = ([], []) :=
  (claim7_parser_total ("  \t ".toList)).2.1 (by decide)

/-- C8: an optional free-text field is stripped of surrounding whitespace
and truncated to two hundred characters, so a two-hundred-fifty-character
already-stripped input yields a two-hundred-character value; a
whitespace-only field is normalized to absent; every retained value is
non-empty and at most two hundred characters; and a field that is
whitespace-only before sanitization yields the same built user prompt as
an absent field, rather than an empty bullet. -/
theorem claim8_optional_field_sanitization :
    (∀ v : PyStr, (∀ c ∈ v, isPySpace c = true) →
      sanitizeOptionalField (some v) = none)
    ∧ (∀ v : PyStr, v.length = 250 → pyStrip v = v →
        sanitizeOptionalField (some v) = some (v.take 200) ∧
          (v.take 200).length = 200)
    ∧ (∀ v t : PyStr, sanitizeOptionalField (some v) = some t →
        t.length ≤ 200 ∧ t ≠ [])
    ∧ (∀ sn se re co ro : PyStr, ∀ pos ol cn : Option PyStr, ∀ hf : PyStr,
        (∀ c ∈ hf, isPySpace c = true) →
        userPrompt sn se re co ro pos (sanitizeOptionalField (some hf)) ol cn =
          userPrompt sn se re co ro pos none ol cn) := by
  refine ⟨fun v hv => sanitize_all_space hv, ?_, ?_, ?_⟩
  · intro v hlen hstrip
    have hne : v ≠ [] := by
      intro e
      subst e
      simp at hlen
    have htake : v.take 200 ≠ [] := by
      intro e
      have h1 : (v.take 200).length = 0 := by rw [e]; rfl
      rw [List.length_take, hlen] at h1
      omega
    refine ⟨?_, ?_⟩
    · simp [sanitizeOptionalField, hne, hstrip, htake]
    · rw [List.length_take, hlen]
      omega
  · intro v t h
    by_cases hnil : v = []
    · rw [hnil] at h
      simp [sanitizeOptionalField] at h
    · by_cases hx : (pyStrip v).take 200 = []
      · simp [sanitizeOptionalField, hnil, hx] at h
      · simp [sanitizeOptionalField, hnil, hx] at h
        constructor
        · rw [← h, List.length_take]
          omega
        · rw [← h]
          exact hx
  · intro sn se re co ro pos ol cn hf hws
    rw [sanitize_all_space hws]

set_option maxRecDepth 8000 in
/-- Witness for C8: two hundred fifty letters truncate to two hundred,
and three spaces sanitize to absent. -/
theorem claim8_witness :
    sanitizeOptionalField (some (List.replicate 250 'a')) =
      some (List.replicate 200 'a')
    ∧ sanitizeOptionalField (some "   ".toList) = none := by
  constructor
  · have h := claim8_optional_field_sanitization.2.1 (List.replicate 250 'a')
      (by decide) (by decide)
    exact h.1.trans (by decide)
  · exact claim8_optional_field_sanitization.1 ("   ".toList) (by decide)

/-- Counterexample to C9 as stated: in the worst case where every attempt
against both models returns HTTP 429, the logical call sleeps exactly
twenty seconds, not the thirty seconds claimed by the two models times
three attempts times five seconds formula. -/
theorem claim9_sleep_counterexample :
    (invokeWithFallback (fun _ => ⟨429⟩) (fun _ => 0) "m" ⟨[], 0⟩).slept = 20
    ∧ (invokeWithFallback (fun _ => ⟨429⟩) (fun _ => 0) "m" ⟨[], 0⟩).slept ≠
        2 * 3 * 5 := by
  decide

/-- C9 as amended: in the worst case where every attempt against both
models returns HTTP 429 and the breaker does not block either sequence,
the logical call accumulates exactly twenty seconds of sleep - two models
times two inter-attempt delays of five seconds, with no sleep after the
final attempt of each model - and fails with the rate-limited error. -/
theorem claim9_worst_case_sleep (net : Nat → Response) (tm : Nat → ℤ)
    (model : String) (st : CBState)
    (h429 : ∀ i, (net i).status = 429)
    (h0 : ¬ tm 0 < st.circuitOpenUntil)
    (hm : model ≠ FALLBACK_MODEL)
    (h2 : ¬ tm 2 < (recordFailure (tm 1) st).circuitOpenUntil) :
    (invokeWithFallback net tm model st).slept = 2 * 2 * RETRY_DELAY
    ∧ (invokeWithFallback net tm model st).result = .error .rateLimited := by
  have hA := reqLoop_all429 net 0 (by intro i _; exact h429 _)
  have hc1 : (makeApiRequest net 0).2.1 = 3 := by rw [hA]
  have hB : makeApiRequest net (makeApiRequest net 0).2.1 =
      (.error .rateLimited, 3, 10) := by
    rw [hc1]
    exact reqLoop_all429 net 3 (by intro i _; exact h429 _)
  have herr : (makeApiRequest net 0).1 = .error .rateLimited := by rw [hA]
  have herr2 : (makeApiRequest net (makeApiRequest net 0).2.1).1 =
      .error .rateLimited := by rw [hB]
  rw [invoke_fallback_err h0 herr hm h2 herr2]
  constructor
  · show (makeApiRequest net 0).2.2 +
      (makeApiRequest net (makeApiRequest net 0).2.1).2.2 = 2 * 2 * RETRY_DELAY
    rw [hB, hA]
    rfl
  · rfl

/-- Witness for C9: the all-429 oracle with a closed breaker sleeps
twenty seconds and raises the rate-limited error. -/
theorem claim9_witness :
    (invokeWithFallback (fun _ => ⟨429⟩) (fun _ => 7) "x" ⟨[], 0⟩).slept = 20
    ∧ (invokeWithFallback (fun _ => ⟨429⟩) (fun _ => 7) "x" ⟨[], 0⟩).result =
        .error .rateLimited := by
  have h := claim9_worst_case_sleep (fun _ => ⟨429⟩) (fun _ => 7) "x" ⟨[], 0⟩
    (fun _ => rfl) (by decide) (by decide) (by decide)
  exact ⟨h.1.trans (by decide), h.2⟩

/-- C10: recording a success clears only the failure-timestamp window; it
leaves the open-until timestamp unchanged, so an already-running cooldown
is never shortened or cancelled by a success and the circuit check
behaves identically before and after the success is recorded. -/
theorem claim10_success_preserves_cooldown (st : CBState) :
    (recordSuccess st).circuitOpenUntil = st.circuitOpenUntil
    ∧ (recordSuccess st).failureTimestamps = []
    ∧ ∀ now : ℤ, ensureCircuitAllowsCall now (recordSuccess st) =
        ensureCircuitAllowsCall now st := by
  refine ⟨recordSuccess_circuitOpenUntil st, recordSuccess_failureTimestamps st, ?_⟩
  intro now
  simp [ensureCircuitAllowsCall, recordSuccess_circuitOpenUntil]

end ColdEmail
